import Mathlib

/-!
Verification of the notes service (FastAPI + SQLAlchemy CRUD app).

Shallow embedding of the data model and operations of `app/crud.py`,
`app/schemas.py` and `app/routers/notes.py`. The database session is
modelled as an explicit state value; each write operation takes a
`commitOk : Bool` flag standing for whether the store accepts the
commit (the code wraps every commit in try/except IntegrityError with
rollback; which constraints the store enforces lives in `app/models.py`
and the database, outside the embedded CRUD layer). Fallible operations
return an `Except ApiError` result paired with the post-state.
-/

namespace NotesApp

/-- A persisted user row (table described by the User model and the
schemas in `app/schemas.py`). Timestamps are omitted: no embedded
operation reads or branches on them. -/
structure User where
  id : Nat
  email : String
  username : String
  hashed_password : String
  is_active : Bool
deriving Repr, DecidableEq

/-- A persisted note row: title, content, visibility flag and owning
user id, per the Note schema in `app/schemas.py`. -/
structure Note where
  id : Nat
  title : String
  content : String
  is_public : Bool
  owner_id : Nat
deriving Repr, DecidableEq

/-- The database state: user rows, note rows, and the next surrogate
ids the store will assign. Row order is storage order (insertion
order), which is what offset/limit paginate over. -/
structure DB where
  users : List User
  notes : List Note
  nextUserId : Nat
  nextNoteId : Nat
deriving Repr, DecidableEq

def emptyDB : DB := { users := [], notes := [], nextUserId := 1, nextNoteId := 1 }

/-- Errors raised by the CRUD layer and the validation layer, with the
detail strings of `app/crud.py`. In this code constraint violations
and duplicate registrations are raised with HTTP 400, see
`ApiError.status`. -/
inductive ApiError where
  | notFound (detail : String)
  | conflict (detail : String)
  | validation
  | unauthenticated
deriving Repr, DecidableEq

/-- HTTP status each error kind is raised with in the code
(HTTP_404_NOT_FOUND, HTTP_400_BAD_REQUEST, FastAPI validation 422,
missing bearer token 401). -/
def ApiError.status : ApiError → Nat
  | .notFound _ => 404
  | .conflict _ => 400
  | .validation => 422
  | .unauthenticated => 401

/-- Request body for note creation (`NoteCreate` in `app/schemas.py`):
title, content and an optional visibility flag defaulting to false.
There is no owner field in this schema, so a caller-supplied owner is
not representable and is ignored by validation. -/
structure NoteCreate where
  title : String
  content : String
  is_public : Bool := false
deriving Repr, DecidableEq

/-- Request body for note update (`NoteUpdate` in `app/schemas.py`):
three independently optional fields. `none` models a field absent from
the request (the code applies `dict(exclude_unset=True)`). -/
structure NoteUpdate where
  title : Option String := none
  content : Option String := none
  is_public : Option Bool := none
deriving Repr, DecidableEq

/-- Request body for registration (`UserCreate` in `app/schemas.py`). -/
structure UserCreate where
  email : String
  username : String
  password : String
deriving Repr, DecidableEq

-- User queries, from `app/crud.py`.

def get_user_by_email (db : DB) (email : String) : Option User :=
  db.users.find? (fun u => u.email == email)

def get_user_by_username (db : DB) (username : String) : Option User :=
  db.users.find? (fun u => u.username == username)

/-- Register, from `create_user` in `app/crud.py`: reject if the email
or the username is already present (HTTP 400), otherwise hash the
password and insert the new row; an IntegrityError on commit rolls
back and reports HTTP 400. `hashFn` stands for `get_password_hash` of
`app/auth.py` (an external collaborator per the design: one-way hash,
opaque to this layer). The new user is active:
Modelled from the spec: the User model (`app/models.py`, not under
src/) defaults the active flag to true, and registration persists a
new active user. -/
def create_user (db : DB) (user : UserCreate) (hashFn : String → String)
    (commitOk : Bool) : Except ApiError User × DB :=
  if (get_user_by_email db user.email).isSome then
    (.error (.conflict "Email already registered"), db)
  else if (get_user_by_username db user.username).isSome then
    (.error (.conflict "Username already taken"), db)
  else
    let db_user : User :=
      { id := db.nextUserId
        email := user.email
        username := user.username
        hashed_password := hashFn user.password
        is_active := true }
    if commitOk then
      (.ok db_user,
        { db with users := db.users ++ [db_user], nextUserId := db.nextUserId + 1 })
    else
      (.error (.conflict "User creation failed due to constraint violation"), db)

-- Note queries, from `app/crud.py`.

/-- `get_note`: the row with the given id owned by the given user, or
none. This is the ownership filter used by read (first branch), update
and delete. -/
def get_note (db : DB) (note_id : Nat) (user_id : Nat) : Option Note :=
  db.notes.find? (fun n => n.id == note_id && n.owner_id == user_id)

/-- `get_public_note`: the row with the given id whose visibility flag
is set, or none. -/
def get_public_note (db : DB) (note_id : Nat) : Option Note :=
  db.notes.find? (fun n => n.id == note_id && n.is_public)

/-- `get_user_notes`: the requester's notes in storage order, offset
by skip and capped at limit. -/
def get_user_notes (db : DB) (user_id : Nat) (skip : Nat) (limit : Nat) : List Note :=
  (((db.notes.filter (fun n => n.owner_id == user_id)).drop skip).take limit)

/-- `get_public_notes`: all public notes, same offset/limit contract. -/
def get_public_notes (db : DB) (skip : Nat) (limit : Nat) : List Note :=
  (((db.notes.filter (fun n => n.is_public)).drop skip).take limit)

/-- `create_note` in `app/crud.py`: build the row from the request
body with the owner forced to the authenticated user's id, then
insert; an IntegrityError on commit rolls back and reports HTTP 400. -/
def create_note (db : DB) (note : NoteCreate) (user_id : Nat)
    (commitOk : Bool) : Except ApiError Note × DB :=
  let db_note : Note :=
    { id := db.nextNoteId
      title := note.title
      content := note.content
      is_public := note.is_public
      owner_id := user_id }
  if commitOk then
    (.ok db_note,
      { db with notes := db.notes ++ [db_note], nextNoteId := db.nextNoteId + 1 })
  else
    (.error (.conflict "Note creation failed"), db)

/-- The reflective partial-update loop of `update_note`: assign each
field present in `dict(exclude_unset=True)`, leave absent fields as
they are. Identity and owner are untouched (they are not in the
NoteUpdate schema). -/
def applyNoteUpdate (n : Note) (u : NoteUpdate) : Note :=
  { n with
    title := u.title.getD n.title
    content := u.content.getD n.content
    is_public := u.is_public.getD n.is_public }

/-- `update_note` in `app/crud.py`: resolve the note through the
ownership filter `get_note` (404 if it fails), apply the supplied
fields, commit; an IntegrityError rolls the unit of work back and
reports HTTP 400, leaving the stored row as it was. -/
def update_note (db : DB) (note_id : Nat) (note_update : NoteUpdate)
    (user_id : Nat) (commitOk : Bool) : Except ApiError Note × DB :=
  match get_note db note_id user_id with
  | none => (.error (.notFound "Note not found"), db)
  | some db_note =>
    let n' := applyNoteUpdate db_note note_update
    if commitOk then
      (.ok n',
        { db with notes := db.notes.map (fun m => if m.id == note_id then n' else m) })
    else
      (.error (.conflict "Note update failed"), db)

/-- `delete_note` in `app/crud.py`: resolve through the ownership
filter (404 if it fails), then delete the row by primary key; an
IntegrityError rolls back and reports HTTP 400. -/
def delete_note (db : DB) (note_id : Nat) (user_id : Nat)
    (commitOk : Bool) : Except ApiError Bool × DB :=
  match get_note db note_id user_id with
  | none => (.error (.notFound "Note not found"), db)
  | some _ =>
    if commitOk then
      (.ok true, { db with notes := db.notes.filter (fun m => !(m.id == note_id)) })
    else
      (.error (.conflict "Note deletion failed"), db)

-- Request handlers, from `app/routers/notes.py`.

/-- `read_note` handler body (GET /notes/{id}, after authentication):
first try the requester's own note, then fall back to the public
lookup, else 404 "Note not found". -/
def read_note (db : DB) (note_id : Nat) (user_id : Nat) : Except ApiError Note :=
  match get_note db note_id user_id with
  | some note => .ok note
  | none =>
    match get_public_note db note_id with
    | some note => .ok note
    | none => .error (.notFound "Note not found")

/-- GET /notes/{id} including the authentication dependency: the route
declares Depends(get_current_active_user), so a request with no
identity is rejected before the handler body runs.
Modelled from the spec: `get_current_active_user` lives in
`app/auth.py` (not under src/); per the design, identity extraction
fails with Unauthenticated when the bearer token is missing or
invalid, and GET /notes/{id} is listed as requiring auth. -/
def read_note_endpoint (db : DB) (auth : Option Nat) (note_id : Nat) :
    Except ApiError Note :=
  match auth with
  | none => .error .unauthenticated
  | some user_id => read_note db note_id user_id

/-- Query-parameter validation of the list endpoints
(`Query(0, ge=0)` for skip, `Query(100, ge=1, le=1000)` for limit):
FastAPI rejects out-of-range values with a 422 before the handler
runs. -/
def validatePagination (skip : Int) (limit : Int) : Bool :=
  0 ≤ skip && 1 ≤ limit && limit ≤ 1000

/-- GET /notes (`read_user_notes` handler): validate pagination, then
list the authenticated user's notes. -/
def read_user_notes (db : DB) (user_id : Nat) (skip : Int) (limit : Int) :
    Except ApiError (List Note) :=
  if validatePagination skip limit then
    .ok (get_user_notes db user_id skip.toNat limit.toNat)
  else
    .error .validation

/-- GET /notes/public (`read_public_notes` handler, no auth): validate
pagination, then list public notes. -/
def read_public_notes (db : DB) (skip : Int) (limit : Int) :
    Except ApiError (List Note) :=
  if validatePagination skip limit then
    .ok (get_public_notes db skip.toNat limit.toNat)
  else
    .error .validation

/-- Well-formed storage: primary keys of note rows are distinct (the
store enforces this; reachable states satisfy it). -/
def DB.wfNotes (db : DB) : Prop :=
  db.notes.Pairwise (fun a b => a.id ≠ b.id)

instance (db : DB) : Decidable db.wfNotes := by
  unfold DB.wfNotes
  exact inferInstance

-- The public note-mutating operations, as a step system over DB, for
-- the owner-immutability invariant: Create, Update and Delete are the
-- only operations of the service that write note rows.

/-- One note-mutating request: the requester id the handler obtained
from authentication, the request body, and whether the store accepts
the commit. -/
inductive Op where
  | create (uid : Nat) (nc : NoteCreate) (commitOk : Bool)
  | update (uid : Nat) (note_id : Nat) (nu : NoteUpdate) (commitOk : Bool)
  | delete (uid : Nat) (note_id : Nat) (commitOk : Bool)
deriving Repr, DecidableEq

/-- The database state after one operation. -/
def applyOp (db : DB) : Op → DB
  | .create uid nc c => (create_note db nc uid c).2
  | .update uid i nu c => (update_note db i nu uid c).2
  | .delete uid i c => (delete_note db i uid c).2

/-- Ghost creation record of one operation: the (note id, requester id)
pair persisted by a successful Create, nothing otherwise. -/
def opLog (db : DB) : Op → List (Nat × Nat)
  | .create uid nc c =>
    match (create_note db nc uid c).1 with
    | .ok n => [(n.id, uid)]
    | .error _ => []
  | .update _ _ _ _ => []
  | .delete _ _ _ => []

/-- The database state after a sequence of operations. -/
def runOps : DB → List Op → DB
  | db, [] => db
  | db, op :: ops => runOps (applyOp db op) ops

/-- The creation records accumulated along a sequence of operations. -/
def runLog : DB → List Op → List (Nat × Nat)
  | _, [] => []
  | db, op :: ops => opLog db op ++ runLog (applyOp db op) ops

/-- Note ids already used are below the store's next surrogate id, so
freshly assigned ids never collide with existing rows. -/
def DB.freshIds (db : DB) : Prop :=
  ∀ n ∈ db.notes, n.id < db.nextNoteId

-- Concrete states used to instantiate the theorems.

def sampleNote : Note :=
  { id := 1, title := "t", content := "c", is_public := false, owner_id := 1 }

def samplePublicNote : Note :=
  { id := 2, title := "p", content := "d", is_public := true, owner_id := 1 }

def sampleDB : DB :=
  { users := [], notes := [sampleNote, samplePublicNote], nextUserId := 1, nextNoteId := 3 }

def sampleHash (s : String) : String := s ++ "#hashed"

def sampleRegistration : UserCreate :=
  { email := "a@x.com", username := "alice", password := "pw123" }

def sampleRegistrationSameEmail : UserCreate :=
  { email := "a@x.com", username := "bob", password := "pw456" }

def c9Notes : List Note :=
  (List.range 150).map (fun i =>
    { id := i + 1, title := "t", content := "c", is_public := false, owner_id := 7 })

def c9DB : DB :=
  { users := [], notes := c9Notes, nextUserId := 1, nextNoteId := 151 }

def c10Ops : List Op :=
  [ .create 5 { title := "t", content := "c", is_public := false } true,
    .update 5 1 { title := some "x", content := none, is_public := none } true ]

def c10Note : Note :=
  { id := 1, title := "x", content := "c", is_public := false, owner_id := 5 }

-- Helper lemmas about the lookup queries.

theorem find?_eq_some_of_unique {α : Type} {p : α → Bool} {l : List α} {n : α}
    (hmem : n ∈ l) (hp : p n = true)
    (huniq : ∀ m ∈ l, p m = true → m = n) : l.find? p = some n := by
  induction l with
  | nil => cases hmem
  | cons a t ih =>
    rcases List.mem_cons.mp hmem with h | h
    · subst h
      exact List.find?_cons_of_pos t hp
    · cases hpa : p a with
      | true =>
        have ha : a = n := huniq a (List.mem_cons_self a t) hpa
        subst ha
        exact List.find?_cons_of_pos t hpa
      | false =>
        rw [List.find?_cons_of_neg t (by simp [hpa])]
        exact ih h (fun m hm hpm => huniq m (List.mem_cons_of_mem a hm) hpm)

theorem wfNotes_id_unique {db : DB} (hwf : db.wfNotes) {m n : Note}
    (hm : m ∈ db.notes) (hn : n ∈ db.notes) (h : m.id = n.id) : m = n := by
  by_contra hne
  exact hwf.forall (fun a b hab => (hab ∘ Eq.symm : b.id ≠ a.id)) hm hn hne h

theorem get_note_eq_some {db : DB} (hwf : db.wfNotes) {n : Note}
    (hn : n ∈ db.notes) : get_note db n.id n.owner_id = some n := by
  apply find?_eq_some_of_unique hn (by simp)
  intro m hm hpm
  simp only [Bool.and_eq_true, beq_iff_eq] at hpm
  exact wfNotes_id_unique hwf hm hn hpm.1

theorem get_note_eq_none_of_not_owner {db : DB} (hwf : db.wfNotes) {n : Note}
    (hn : n ∈ db.notes) {u : Nat} (hne : n.owner_id ≠ u) :
    get_note db n.id u = none := by
  rw [get_note, List.find?_eq_none]
  intro m hm
  simp only [Bool.and_eq_true, beq_iff_eq, not_and]
  intro hid
  have : m = n := wfNotes_id_unique hwf hm hn hid
  subst this
  exact hne

theorem get_note_eq_none_of_absent {db : DB} {i u : Nat}
    (h : ∀ m ∈ db.notes, m.id ≠ i) : get_note db i u = none := by
  rw [get_note, List.find?_eq_none]
  intro m hm
  simp [h m hm]

theorem get_public_note_eq_some {db : DB} (hwf : db.wfNotes) {n : Note}
    (hn : n ∈ db.notes) (hp : n.is_public = true) :
    get_public_note db n.id = some n := by
  apply find?_eq_some_of_unique hn (by simp [hp])
  intro m hm hpm
  simp only [Bool.and_eq_true, beq_iff_eq] at hpm
  exact wfNotes_id_unique hwf hm hn hpm.1

theorem get_public_note_eq_none_of_private {db : DB} (hwf : db.wfNotes) {n : Note}
    (hn : n ∈ db.notes) (hp : n.is_public = false) :
    get_public_note db n.id = none := by
  rw [get_public_note, List.find?_eq_none]
  intro m hm
  simp only [Bool.and_eq_true, beq_iff_eq, not_and]
  intro hid
  have : m = n := wfNotes_id_unique hwf hm hn hid
  subst this
  simp [hp]

theorem get_public_note_eq_none_of_absent {db : DB} {i : Nat}
    (h : ∀ m ∈ db.notes, m.id ≠ i) : get_public_note db i = none := by
  rw [get_public_note, List.find?_eq_none]
  intro m hm
  simp [h m hm]

-- Claim theorems.

/-- C1: for distinct users u1 and u2 and a private note n owned by u1,
reading n as u2 through GET /notes/{id} produces the same observable
outcome as reading a nonexistent id as u2: both are the same NotFound
error, so a non-owner cannot distinguish another user's private note
from a note that does not exist. -/
theorem private_note_indistinguishable_from_absent
    (db : DB) (n : Note) (u1 u2 j : Nat)
    (hwf : db.wfNotes) (hn : n ∈ db.notes)
    (hown : n.owner_id = u1) (hne : u1 ≠ u2)
    (hpriv : n.is_public = false)
    (hj : ∀ m ∈ db.notes, m.id ≠ j) :
    read_note db n.id u2 = read_note db j u2 ∧
    read_note db n.id u2 = .error (.notFound "Note not found") := by
  have h1 : get_note db n.id u2 = none :=
    get_note_eq_none_of_not_owner hwf hn (hown ▸ hne)
  have h2 : get_public_note db n.id = none :=
    get_public_note_eq_none_of_private hwf hn hpriv
  have h3 : get_note db j u2 = none := get_note_eq_none_of_absent hj
  have h4 : get_public_note db j = none := get_public_note_eq_none_of_absent hj
  rw [read_note, read_note, h1, h2, h3, h4]
  exact ⟨rfl, rfl⟩

/-- C1 witness: a concrete two-note store where user 2 reads user 1's
private note 1 and the nonexistent id 99, with identical NotFound
outcomes. -/
theorem private_note_indistinguishable_from_absent_witness :
    read_note sampleDB sampleNote.id 2 = read_note sampleDB 99 2 ∧
    read_note sampleDB sampleNote.id 2 =
      .error (.notFound "Note not found") :=
  private_note_indistinguishable_from_absent sampleDB sampleNote 1 2 99
    (by decide) (by decide) (by decide) (by decide) (by decide) (by decide)

/-- C3: Resolve-for-write, the ownership check performed by Update and
Delete, fails with NotFound for every non-owner, regardless of the
note's visibility, and leaves the store unchanged: there is no state
in which a non-owner may update or delete a note. -/
theorem write_requires_ownership
    (db : DB) (n : Note) (u2 : Nat) (upd : NoteUpdate) (c1 c2 : Bool)
    (hwf : db.wfNotes) (hn : n ∈ db.notes) (hown : n.owner_id ≠ u2) :
    update_note db n.id upd u2 c1 = (.error (.notFound "Note not found"), db) ∧
    delete_note db n.id u2 c2 = (.error (.notFound "Note not found"), db) := by
  have h1 : get_note db n.id u2 = none :=
    get_note_eq_none_of_not_owner hwf hn hown
  rw [update_note, delete_note, h1]
  exact ⟨rfl, rfl⟩

/-- C3 witness: user 2 can neither update nor delete user 1's note,
even though that note is public. -/
theorem write_requires_ownership_witness :
    update_note sampleDB samplePublicNote.id { title := some "hack" } 2 true =
      (.error (.notFound "Note not found"), sampleDB) ∧
    delete_note sampleDB samplePublicNote.id 2 true =
      (.error (.notFound "Note not found"), sampleDB) :=
  write_requires_ownership sampleDB samplePublicNote 2 { title := some "hack" }
    true true (by decide) (by decide) (by decide)

/-- C2 counterexample: the claim includes an unauthenticated requester
with no identity, but GET /notes/{id} declares the authentication
dependency, so a request without an identity on a concrete public note
is rejected with Unauthenticated instead of succeeding. -/
theorem public_note_unauthenticated_read_rejected :
    samplePublicNote.is_public = true ∧
    samplePublicNote ∈ sampleDB.notes ∧
    read_note_endpoint sampleDB none samplePublicNote.id =
      .error .unauthenticated := by
  refine ⟨rfl, by decide, rfl⟩

/-- C2 (amended): for every public note n and every authenticated
requester u2 — owner or not — GET /notes/{id} succeeds and returns n
unchanged; a requester with no identity is rejected with
Unauthenticated before the handler body runs (unauthenticated access
to public notes is available only through the GET /notes/public
list). -/
theorem public_note_read_ok (db : DB) (n : Note) (u2 : Nat)
    (hwf : db.wfNotes) (hn : n ∈ db.notes) (hp : n.is_public = true) :
    read_note_endpoint db (some u2) n.id = .ok n ∧
    read_note_endpoint db none n.id = .error .unauthenticated := by
  refine ⟨?_, rfl⟩
  show read_note db n.id u2 = .ok n
  by_cases h : n.owner_id = u2
  · have h1 : get_note db n.id u2 = some n := h ▸ get_note_eq_some hwf hn
    rw [read_note, h1]
  · have h1 : get_note db n.id u2 = none :=
      get_note_eq_none_of_not_owner hwf hn h
    have h2 : get_public_note db n.id = some n :=
      get_public_note_eq_some hwf hn hp
    rw [read_note, h1, h2]

/-- C2 witness: user 2, who does not own public note 2, reads it and
gets it back unchanged. -/
theorem public_note_read_ok_witness :
    read_note_endpoint sampleDB (some 2) samplePublicNote.id =
      .ok samplePublicNote ∧
    read_note_endpoint sampleDB none samplePublicNote.id =
      .error .unauthenticated :=
  public_note_read_ok sampleDB samplePublicNote 2
    (by decide) (by decide) (by decide)

/-- C4: Create persists a note whose owner is the authenticated
requester's id: the NoteCreate schema carries no owner field (a
caller-supplied one is ignored by validation), and the row is built
with owner_id forced to the requester, so the persisted owner always
equals the caller. -/
theorem create_forces_owner (db : DB) (nc : NoteCreate) (uid : Nat) :
    ∃ n', create_note db nc uid true =
        (.ok n',
          { db with notes := db.notes ++ [n'], nextNoteId := db.nextNoteId + 1 }) ∧
      n'.owner_id = uid ∧
      n'.title = nc.title ∧ n'.content = nc.content ∧
      n'.is_public = nc.is_public :=
  ⟨_, rfl, rfl, rfl, rfl, rfl⟩

/-- C5: a partial Update by the owner changes exactly the supplied
fields: each field present in the request takes the supplied value and
each absent field keeps its prior value (getD on an absent field is
the prior value), while id and owner are untouched; the stored row is
replaced by exactly this merged note. -/
theorem partial_update_frame (db : DB) (n : Note) (upd : NoteUpdate)
    (hwf : db.wfNotes) (hn : n ∈ db.notes) :
    ∃ n', update_note db n.id upd n.owner_id true =
        (.ok n',
          { db with notes := db.notes.map (fun m => if m.id == n.id then n' else m) }) ∧
      n'.id = n.id ∧ n'.owner_id = n.owner_id ∧
      n'.title = upd.title.getD n.title ∧
      n'.content = upd.content.getD n.content ∧
      n'.is_public = upd.is_public.getD n.is_public := by
  have h : get_note db n.id n.owner_id = some n := get_note_eq_some hwf hn
  refine ⟨applyNoteUpdate n upd, ?_, rfl, rfl, rfl, rfl, rfl⟩
  rw [update_note, h]
  rfl

/-- C5 witness: updating only the title of note 1 leaves its content
and visibility at their prior values. -/
theorem partial_update_frame_witness :
    ∃ n', update_note sampleDB sampleNote.id { title := some "x" }
        sampleNote.owner_id true =
        (.ok n',
          { sampleDB with
            notes := sampleDB.notes.map
              (fun m => if m.id == sampleNote.id then n' else m) }) ∧
      n'.id = sampleNote.id ∧ n'.owner_id = sampleNote.owner_id ∧
      n'.title = (some "x").getD sampleNote.title ∧
      n'.content = Option.getD none sampleNote.content ∧
      n'.is_public = Option.getD none sampleNote.is_public :=
  partial_update_frame sampleDB sampleNote { title := some "x" }
    (by decide) (by decide)

/-- C6: deleting an owned note twice succeeds the first time and fails
the second time with exactly the NotFound error of a nonexistent note
(whatever the store would have said about the second commit), never
with success and never with a different error that would reveal the
note's prior existence. -/
theorem delete_twice (db : DB) (n : Note) (c2 : Bool)
    (hwf : db.wfNotes) (hn : n ∈ db.notes) :
    ∃ db1, delete_note db n.id n.owner_id true = (.ok true, db1) ∧
      delete_note db1 n.id n.owner_id c2 =
        (.error (.notFound "Note not found"), db1) := by
  have h : get_note db n.id n.owner_id = some n := get_note_eq_some hwf hn
  refine ⟨{ db with notes := db.notes.filter (fun m => !(m.id == n.id)) }, ?_, ?_⟩
  · rw [delete_note, h]
    rfl
  · have habs : get_note
        { db with notes := db.notes.filter (fun m => !(m.id == n.id)) }
        n.id n.owner_id = none := by
      apply get_note_eq_none_of_absent
      intro m hm
      have := (List.mem_filter.mp hm).2
      simpa using this
    rw [delete_note, habs]

/-- C6 witness: deleting note 1 from the concrete store succeeds, and
repeating the delete reports NotFound. -/
theorem delete_twice_witness :
    ∃ db1, delete_note sampleDB sampleNote.id sampleNote.owner_id true =
        (.ok true, db1) ∧
      delete_note db1 sampleNote.id sampleNote.owner_id true =
        (.error (.notFound "Note not found"), db1) :=
  delete_twice sampleDB sampleNote true (by decide) (by decide)

/-- C7: when the store rejects an owner's update commit with a
constraint violation, the operation reports the conflict error (raised
with HTTP 400 in this code) and the unit of work is rolled back whole:
the post-state is the prior database, so the stored note keeps all of
its prior field values. -/
theorem update_conflict_rolls_back (db : DB) (n : Note) (upd : NoteUpdate)
    (hwf : db.wfNotes) (hn : n ∈ db.notes) :
    update_note db n.id upd n.owner_id false =
      (.error (.conflict "Note update failed"), db) ∧
    (ApiError.conflict "Note update failed").status = 400 := by
  have h : get_note db n.id n.owner_id = some n := get_note_eq_some hwf hn
  exact ⟨by rw [update_note, h]; rfl, rfl⟩

/-- C7 witness: a rejected commit on note 1 leaves the concrete store
exactly as it was. -/
theorem update_conflict_rolls_back_witness :
    update_note sampleDB sampleNote.id { title := some "x" }
        sampleNote.owner_id false =
      (.error (.conflict "Note update failed"), sampleDB) ∧
    (ApiError.conflict "Note update failed").status = 400 :=
  update_conflict_rolls_back sampleDB sampleNote { title := some "x" }
    (by decide) (by decide)

/-- C8: when neither the email nor the username is present, Register
hashes the password and persists a new active user; a second Register
with the same email then fails with the duplicate-email conflict and
leaves the user table unchanged (no new row). -/
theorem register_unique_email
    (db : DB) (uc uc2 : UserCreate) (hashFn : String → String) (c : Bool)
    (he : get_user_by_email db uc.email = none)
    (hu : get_user_by_username db uc.username = none)
    (hsame : uc2.email = uc.email) :
    ∃ u' db1, create_user db uc hashFn true = (.ok u', db1) ∧
      u'.hashed_password = hashFn uc.password ∧
      u'.is_active = true ∧
      db1.users = db.users ++ [u'] ∧
      create_user db1 uc2 hashFn c =
        (.error (.conflict "Email already registered"), db1) := by
  refine ⟨{ id := db.nextUserId, email := uc.email, username := uc.username,
            hashed_password := hashFn uc.password, is_active := true },
          { db with
            users := db.users ++
              [{ id := db.nextUserId, email := uc.email, username := uc.username,
                 hashed_password := hashFn uc.password, is_active := true }],
            nextUserId := db.nextUserId + 1 },
          ?_, rfl, rfl, rfl, ?_⟩
  · simp [create_user, he, hu]
  · have hfind : get_user_by_email
        { db with
          users := db.users ++
            [{ id := db.nextUserId, email := uc.email, username := uc.username,
               hashed_password := hashFn uc.password, is_active := true }],
          nextUserId := db.nextUserId + 1 } uc2.email =
        some { id := db.nextUserId, email := uc.email, username := uc.username,
               hashed_password := hashFn uc.password, is_active := true } := by
      have h1 : db.users.find? (fun v => v.email == uc.email) = none := he
      simp [get_user_by_email, hsame, List.find?_append, h1]
    simp [create_user, hfind]

/-- C8 witness: registering alice on the empty store persists an
active user carrying the hash of her password, and registering bob
with the same email then fails with the duplicate-email conflict. -/
theorem register_unique_email_witness :
    ∃ u' db1,
      create_user emptyDB sampleRegistration sampleHash true = (.ok u', db1) ∧
      u'.hashed_password = sampleHash sampleRegistration.password ∧
      u'.is_active = true ∧
      db1.users = emptyDB.users ++ [u'] ∧
      create_user db1 sampleRegistrationSameEmail sampleHash true =
        (.error (.conflict "Email already registered"), db1) :=
  register_unique_email emptyDB sampleRegistration sampleRegistrationSameEmail
    sampleHash true rfl rfl rfl

/-- C9: the list endpoint rejects limit = 0, limit = 1001 and negative
skip with a validation error, and for a user owning 150 notes the
owned-notes listing returns exactly the first 100 at skip 0 and the
remaining 50 at skip 100, offset-then-limit over the user's notes in
storage order. -/
theorem pagination_contract (db : DB) (u : Nat) (s : Int)
    (hcount : (db.notes.filter (fun n => n.owner_id == u)).length = 150) :
    read_user_notes db u s 0 = .error .validation ∧
    read_user_notes db u s 1001 = .error .validation ∧
    read_user_notes db u (-1) 100 = .error .validation ∧
    ∃ l1 l2, read_user_notes db u 0 100 = .ok l1 ∧ l1.length = 100 ∧
      read_user_notes db u 100 100 = .ok l2 ∧ l2.length = 50 ∧
      l1 ++ l2 = db.notes.filter (fun n => n.owner_id == u) := by
  refine ⟨?_, ?_, ?_,
    (db.notes.filter (fun n => n.owner_id == u)).take 100,
    (db.notes.filter (fun n => n.owner_id == u)).drop 100,
    ?_, ?_, ?_, ?_, ?_⟩
  · simp [read_user_notes, validatePagination]
  · simp [read_user_notes, validatePagination]
  · simp [read_user_notes, validatePagination]
  · simp [read_user_notes, validatePagination, get_user_notes]
  · rw [List.length_take, hcount]
    omega
  · simp [read_user_notes, validatePagination, get_user_notes]
    omega
  · rw [List.length_drop, hcount]
  · exact List.take_append_drop 100 _

/-- C9 witness: on a concrete store where user 7 owns 150 notes, the
out-of-range parameters are rejected and the two pages hold 100 and 50
notes. -/
theorem pagination_contract_witness :
    read_user_notes c9DB 7 5 0 = .error .validation ∧
    read_user_notes c9DB 7 5 1001 = .error .validation ∧
    read_user_notes c9DB 7 (-1) 100 = .error .validation ∧
    ∃ l1 l2, read_user_notes c9DB 7 0 100 = .ok l1 ∧ l1.length = 100 ∧
      read_user_notes c9DB 7 100 100 = .ok l2 ∧ l2.length = 50 ∧
      l1 ++ l2 = c9DB.notes.filter (fun n => n.owner_id == 7) :=
  pagination_contract c9DB 7 5 (by rfl)

-- Provenance of note rows across one operation, for the
-- owner-immutability invariant.

theorem applyNoteUpdate_id (n : Note) (u : NoteUpdate) :
    (applyNoteUpdate n u).id = n.id := rfl

theorem applyNoteUpdate_owner (n : Note) (u : NoteUpdate) :
    (applyNoteUpdate n u).owner_id = n.owner_id := rfl

/-- Every note row after one operation either keeps the id and owner of
a row that was already present, or is the row a successful Create just
logged: Update never changes a row's id or owner, Delete only removes
rows, and Create stamps the requester as owner. -/
theorem applyOp_owner_provenance (db : DB) (op : Op) (m : Note)
    (hm : m ∈ (applyOp db op).notes) :
    (∃ n ∈ db.notes, m.id = n.id ∧ m.owner_id = n.owner_id) ∨
    (m.id, m.owner_id) ∈ opLog db op := by
  cases op with
  | create uid nc c =>
    cases c with
    | false => exact .inl ⟨m, hm, rfl, rfl⟩
    | true =>
      simp only [applyOp, create_note, if_pos] at hm
      rcases List.mem_append.mp hm with h | h
      · exact .inl ⟨m, h, rfl, rfl⟩
      · rcases List.mem_singleton.mp h with rfl
        exact .inr (by simp [opLog, create_note])
  | update uid i nu c =>
    simp only [applyOp, update_note] at hm
    rcases hg : get_note db i uid with _ | n₀
    · rw [hg] at hm
      exact .inl ⟨m, hm, rfl, rfl⟩
    · rw [hg] at hm
      cases c with
      | false => exact .inl ⟨m, hm, rfl, rfl⟩
      | true =>
        simp only [if_pos] at hm
        rcases List.mem_map.mp hm with ⟨m₀, hm₀, hf⟩
        by_cases hid : (m₀.id == i) = true
        · rw [if_pos hid] at hf
          subst hf
          exact .inl ⟨n₀, List.mem_of_find?_eq_some hg,
            applyNoteUpdate_id n₀ nu, applyNoteUpdate_owner n₀ nu⟩
        · rw [if_neg hid] at hf
          subst hf
          exact .inl ⟨m₀, hm₀, rfl, rfl⟩
  | delete uid i c =>
    simp only [applyOp, delete_note] at hm
    rcases hg : get_note db i uid with _ | n₀
    · rw [hg] at hm
      exact .inl ⟨m, hm, rfl, rfl⟩
    · rw [hg] at hm
      cases c with
      | false => exact .inl ⟨m, hm, rfl, rfl⟩
      | true =>
        simp only [if_pos] at hm
        exact .inl ⟨m, (List.mem_filter.mp hm).1, rfl, rfl⟩

theorem applyOp_nextNoteId_mono (db : DB) (op : Op) :
    db.nextNoteId ≤ (applyOp db op).nextNoteId := by
  cases op with
  | create uid nc c =>
    cases c with
    | false => exact Nat.le_refl _
    | true => exact Nat.le_succ _
  | update uid i nu c =>
    simp only [applyOp, update_note]
    rcases get_note db i uid with _ | n₀
    · exact Nat.le_refl _
    · cases c with
      | false => exact Nat.le_refl _
      | true => exact Nat.le_refl _
  | delete uid i c =>
    simp only [applyOp, delete_note]
    rcases get_note db i uid with _ | n₀
    · exact Nat.le_refl _
    · cases c with
      | false => exact Nat.le_refl _
      | true => exact Nat.le_refl _

theorem opLog_id_lt (db : DB) (op : Op) :
    ∀ p ∈ opLog db op, p.1 < (applyOp db op).nextNoteId := by
  cases op with
  | create uid nc c =>
    cases c with
    | false => intro p hp; cases hp
    | true =>
      intro p hp
      rcases List.mem_singleton.mp hp with rfl
      exact Nat.lt_succ_self _
  | update uid i nu c => intro p hp; cases hp
  | delete uid i c => intro p hp; cases hp

theorem runOps_nextNoteId_mono (ops : List Op) (db : DB) :
    db.nextNoteId ≤ (runOps db ops).nextNoteId := by
  induction ops generalizing db with
  | nil => exact Nat.le_refl _
  | cons op ops ih =>
    exact Nat.le_trans (applyOp_nextNoteId_mono db op) (ih (applyOp db op))

theorem runLog_ids_ge (ops : List Op) (db : DB) :
    ∀ p ∈ runLog db ops, db.nextNoteId ≤ p.1 := by
  induction ops generalizing db with
  | nil => intro p hp; cases hp
  | cons op ops ih =>
    intro p hp
    rcases List.mem_append.mp hp with h | h
    · cases op with
      | create uid nc c =>
        cases c with
        | false => cases h
        | true =>
          rcases List.mem_singleton.mp h with rfl
          exact Nat.le_refl _
      | update uid i nu c => cases h
      | delete uid i c => cases h
    · exact Nat.le_trans (applyOp_nextNoteId_mono db op) (ih (applyOp db op) p h)

theorem runLog_ids_distinct (ops : List Op) (db : DB) :
    (runLog db ops).Pairwise (fun p q => p.1 ≠ q.1) := by
  induction ops generalizing db with
  | nil => exact List.Pairwise.nil
  | cons op ops ih =>
    rw [runLog, List.pairwise_append]
    refine ⟨?_, ih (applyOp db op), ?_⟩
    · cases op with
      | create uid nc c =>
        cases c with
        | false => exact List.Pairwise.nil
        | true => simp [opLog, create_note]
      | update uid i nu c => exact List.Pairwise.nil
      | delete uid i c => exact List.Pairwise.nil
    · intro p hp q hq
      have h1 : p.1 < (applyOp db op).nextNoteId := opLog_id_lt db op p hp
      have h2 : (applyOp db op).nextNoteId ≤ q.1 :=
        runLog_ids_ge ops (applyOp db op) q hq
      omega

theorem runOps_owner_provenance (ops : List Op) (db : DB) :
    ∀ m ∈ (runOps db ops).notes,
      (m.id, m.owner_id) ∈ runLog db ops ∨
      ∃ n ∈ db.notes, m.id = n.id ∧ m.owner_id = n.owner_id := by
  induction ops generalizing db with
  | nil => intro m hm; exact .inr ⟨m, hm, rfl, rfl⟩
  | cons op ops ih =>
    intro m hm
    rcases ih (applyOp db op) m hm with hlog | ⟨n, hn, hid, hown⟩
    · exact .inl (by rw [runLog]; exact List.mem_append_right _ hlog)
    · rcases applyOp_owner_provenance db op n hn with ⟨n₀, hn₀, hid₀, hown₀⟩ | hlog
      · exact .inr ⟨n₀, hn₀, hid.trans hid₀, hown.trans hown₀⟩
      · refine .inl ?_
        rw [runLog]
        apply List.mem_append_left
        rw [hid, hown]
        exact hlog

/-- C10: a note's owner is immutable after creation. Over any sequence
of the service's note-mutating operations run from the empty store,
every note in the final state appears in the creation log paired with
exactly its current owner — the requester that created it — and the
logged note ids are pairwise distinct, so the creating requester of
each note id is unique: Update's field set is only title, content and
is_public, and no operation ever assigns a new owner to an existing
note. -/
theorem owner_id_immutable (ops : List Op) :
    (∀ m ∈ (runOps emptyDB ops).notes,
      (m.id, m.owner_id) ∈ runLog emptyDB ops) ∧
    (runLog emptyDB ops).Pairwise (fun p q => p.1 ≠ q.1) := by
  constructor
  · intro m hm
    rcases runOps_owner_provenance ops emptyDB m hm with h | ⟨n, hn, _, _⟩
    · exact h
    · cases hn
  · exact runLog_ids_distinct ops emptyDB

/-- C10 witness: after creating a note as user 5 and updating its
title, the surviving note still carries owner 5 as recorded in the
creation log. -/
theorem owner_id_immutable_witness :
    (c10Note.id, c10Note.owner_id) ∈ runLog emptyDB c10Ops :=
  (owner_id_immutable c10Ops).1 c10Note (by decide)

end NotesApp
